import Mathlib

/-!
Verification of the AICoach repository against its specification.

The development shallowly embeds the relevant program logic:

* `analyzeSquat` from `src/components/PoseDetection.tsx` — the squat
  form-analysis heuristic.  JavaScript numbers are modelled as exact
  rationals wrapped in `JSNum`, which also carries the IEEE special
  values (`NaN`, `Infinity`, `-Infinity`) that JavaScript division can
  produce; property access on `undefined` array slots is modelled with
  `Except JsError`.
* the session coordinator from `src/components/WorkoutSession.tsx` —
  timer tick, session toggle and reset as a step function on an
  explicit state record.
* the voice-coach fallback logic from `src/components/VoiceCoach.tsx` —
  the `onDisconnect` callback and the status-watching effect as a step
  relation driven by an event trace (sequential event-loop semantics:
  handlers run to completion and state updates are visible to the next
  handler).
* the `eleven-signed-url` Supabase edge function (both the deployed
  `index.ts` and the validate-capable variant) — a pure
  request/environment/provider-response → response function that also
  reports whether the outbound provider call was made.
-/

/-! ## JavaScript number model

Coordinates coming from the pose model are finite numbers; the only
operations in `analyzeSquat` that can leave the finite range are the
depth division and the subsequent `* 100`, `Math.min`, `Math.max`.
`JSNum` models the result of that pipeline: a finite rational or one of
the IEEE special values.  Comparisons with `NaN` are false, as in JS. -/

inductive JSNum where
  | nan : JSNum
  | posInf : JSNum
  | negInf : JSNum
  | num : ℚ → JSNum
deriving DecidableEq, Repr

/-- JS division `a / b` of two finite numbers: division by zero yields
`Infinity`, `-Infinity` or `NaN` according to the sign of the numerator. -/
def jsDiv (a b : ℚ) : JSNum :=
  if b = 0 then
    if a = 0 then JSNum.nan
    else if 0 < a then JSNum.posInf
    else JSNum.negInf
  else JSNum.num (a / b)

/-- Multiplication by the positive finite constant `100`. -/
def jsMul100 : JSNum → JSNum
  | JSNum.nan => JSNum.nan
  | JSNum.posInf => JSNum.posInf
  | JSNum.negInf => JSNum.negInf
  | JSNum.num q => JSNum.num (q * 100)

/-- `Math.min(c, x)` for a finite constant `c`: `NaN` propagates. -/
def jsMinC (c : ℚ) : JSNum → JSNum
  | JSNum.nan => JSNum.nan
  | JSNum.posInf => JSNum.num c
  | JSNum.negInf => JSNum.negInf
  | JSNum.num q => JSNum.num (min c q)

/-- `Math.max(c, x)` for a finite constant `c`: `NaN` propagates. -/
def jsMaxC (c : ℚ) : JSNum → JSNum
  | JSNum.nan => JSNum.nan
  | JSNum.posInf => JSNum.posInf
  | JSNum.negInf => JSNum.num c
  | JSNum.num q => JSNum.num (max c q)

/-- JS comparison `x > c`; false when `x` is `NaN`. -/
def jsGtC : JSNum → ℚ → Bool
  | JSNum.nan, _ => false
  | JSNum.posInf, _ => true
  | JSNum.negInf, _ => false
  | JSNum.num q, c => decide (c < q)

/-- JS comparison `x < c`; false when `x` is `NaN`. -/
def jsLtC : JSNum → ℚ → Bool
  | JSNum.nan, _ => false
  | JSNum.posInf, _ => false
  | JSNum.negInf, _ => true
  | JSNum.num q, c => decide (q < c)

/-! ## Data model of the form-analysis heuristic -/

/-- A pose landmark: normalized 2-D point (the heuristic only reads
`x` and `y`). -/
structure Landmark where
  x : ℚ
  y : ℚ
deriving DecidableEq, Repr

inductive KneeAlignment where
  | good : KneeAlignment
  | kneesIn : KneeAlignment
  | kneesOut : KneeAlignment
deriving DecidableEq, Repr

inductive BackAlignment where
  | good : BackAlignment
  | forwardLean : BackAlignment
  | backwardLean : BackAlignment
deriving DecidableEq, Repr

structure SquatAnalysis where
  isSquatting : Bool
  depth : JSNum
  kneeAlignment : KneeAlignment
  backAlignment : BackAlignment
  feedback : List String
deriving DecidableEq, Repr

/-- Accessing a property of `undefined` (a missing array slot) throws a
`TypeError` in JavaScript. -/
inductive JsError where
  | typeError : JsError
deriving DecidableEq, Repr

/-! Feedback message literals from `PoseDetection.tsx`. -/

def msgKneesIn : String := "Keep your knees tracking over your toes"
def msgKneesOut : String := "Bring your knees slightly closer together"
def msgChestUp : String := "Keep your chest up and back straight"
def msgLeanForward : String := "Lean slightly forward to maintain balance"
def msgGoDeeper : String := "Go deeper - aim to get your hips below your knees"
def msgGreatDepth : String := "Great depth! Focus on control"
def msgPerfectDepth : String := "Perfect squat depth!"

/-! Local quantities of `analyzeSquat` (lines 76–104 of
`PoseDetection.tsx`), named after the source variables. -/

def hipHeightOf (leftHip rightHip : Landmark) : ℚ := (leftHip.y + rightHip.y) / 2

def kneeHeightOf (leftKnee rightKnee : Landmark) : ℚ := (leftKnee.y + rightKnee.y) / 2

def ankleHeightOf (leftAnkle rightAnkle : Landmark) : ℚ := (leftAnkle.y + rightAnkle.y) / 2

/-- `const standingHipHeight = 0.4` (the decimal literal as an exact rational). -/
def standingHipHeight : ℚ := 2 / 5

/-- `Math.max(0, Math.min(100, ((standingHipHeight - hipHeight) / (standingHipHeight - kneeHeight)) * 100))`. -/
def squatDepthVal (leftHip rightHip leftKnee rightKnee : Landmark) : JSNum :=
  jsMaxC 0 (jsMinC 100 (jsMul100 (jsDiv
    (standingHipHeight - hipHeightOf leftHip rightHip)
    (standingHipHeight - kneeHeightOf leftKnee rightKnee))))

def hipWidthOf (leftHip rightHip : Landmark) : ℚ := |leftHip.x - rightHip.x|

def kneeWidthOf (leftKnee rightKnee : Landmark) : ℚ := |leftKnee.x - rightKnee.x|

def shoulderCenterOf (leftShoulder rightShoulder : Landmark) : ℚ :=
  (leftShoulder.x + rightShoulder.x) / 2

def hipCenterOf (leftHip rightHip : Landmark) : ℚ := (leftHip.x + rightHip.x) / 2

/-- Knee-alignment classification together with the feedback it pushes
(lines 91–99): `kneeWidth < hipWidth * 0.8` → knees-in,
`kneeWidth > hipWidth * 1.3` → knees-out, else good. -/
def kneeCheck (hipWidth kneeWidth : ℚ) : KneeAlignment × List String :=
  if kneeWidth < hipWidth * (4 / 5) then (KneeAlignment.kneesIn, [msgKneesIn])
  else if hipWidth * (13 / 10) < kneeWidth then (KneeAlignment.kneesOut, [msgKneesOut])
  else (KneeAlignment.good, [])

/-- Back-alignment classification together with the feedback it pushes
(lines 106–113): `shoulderCenter < hipCenter - 0.05` → forward-lean,
`shoulderCenter > hipCenter + 0.05` → backward-lean, else good. -/
def backCheck (shoulderCenter hipCenter : ℚ) : BackAlignment × List String :=
  if shoulderCenter < hipCenter - 1 / 20 then (BackAlignment.forwardLean, [msgChestUp])
  else if hipCenter + 1 / 20 < shoulderCenter then (BackAlignment.backwardLean, [msgLeanForward])
  else (BackAlignment.good, [])

/-- Depth feedback (lines 116–124): pushed only while squatting; band
chosen by `squatDepth < 60`, `> 90`, otherwise the middle band. -/
def depthFeedback (squatting : Bool) (d : JSNum) : List String :=
  if squatting then
    [if jsLtC d 60 then msgGoDeeper
     else if jsGtC d 90 then msgGreatDepth
     else msgPerfectDepth]
  else []

/-- The body of `analyzeSquat` once all eight required landmarks have
been read successfully (the ankles are read by the source but unused). -/
def analyzeSquatCore (leftHip rightHip leftKnee rightKnee
    leftAnkle rightAnkle leftShoulder rightShoulder : Landmark) : SquatAnalysis :=
  let squatDepth := squatDepthVal leftHip rightHip leftKnee rightKnee
  let squatting := jsGtC squatDepth 20
  let knee := kneeCheck (hipWidthOf leftHip rightHip) (kneeWidthOf leftKnee rightKnee)
  let back := backCheck (shoulderCenterOf leftShoulder rightShoulder)
    (hipCenterOf leftHip rightHip)
  { isSquatting := squatting
    depth := squatDepth
    kneeAlignment := knee.1
    backAlignment := back.1
    feedback := knee.2 ++ back.2 ++ depthFeedback squatting squatDepth }

/-- The neutral result returned for absent or empty landmark input. -/
def neutralSquatAnalysis : SquatAnalysis :=
  { isSquatting := false
    depth := JSNum.num 0
    kneeAlignment := KneeAlignment.good
    backAlignment := BackAlignment.good
    feedback := [] }

/-- Reading `landmarks[i]` followed by a property access: a missing slot
is `undefined`, and `.y` on it throws a `TypeError`. -/
def getLm (l : List Landmark) (i : ℕ) : Except JsError Landmark :=
  match l[i]? with
  | some lm => Except.ok lm
  | none => Except.error JsError.typeError

/-- `analyzeSquat` from `PoseDetection.tsx` lines 52–133.  The guard
`!landmarks || landmarks.length === 0` is the only input validation;
past it the eight joints at indices 23, 24, 25, 26, 27, 28, 11, 12 are
dereferenced (first failing property access throws). -/
def analyzeSquat (landmarks : Option (List Landmark)) : Except JsError SquatAnalysis :=
  match landmarks with
  | none => Except.ok neutralSquatAnalysis
  | some l =>
    if l.length = 0 then Except.ok neutralSquatAnalysis
    else do
      let leftHip ← getLm l 23
      let rightHip ← getLm l 24
      let leftKnee ← getLm l 25
      let rightKnee ← getLm l 26
      let leftAnkle ← getLm l 27
      let rightAnkle ← getLm l 28
      let leftShoulder ← getLm l 11
      let rightShoulder ← getLm l 12
      pure (analyzeSquatCore leftHip rightHip leftKnee rightKnee
        leftAnkle rightAnkle leftShoulder rightShoulder)

/-- A 29-slot landmark list (MediaPipe indices 0–28) with the eight
joints used by the heuristic at their proper indices and a filler
elsewhere; used to build concrete test inputs. -/
def mkLandmarks (leftShoulder rightShoulder leftHip rightHip
    leftKnee rightKnee leftAnkle rightAnkle : Landmark) : List Landmark :=
  let z : Landmark := { x := 0, y := 0 }
  [z, z, z, z, z, z, z, z, z, z, z,
   leftShoulder, rightShoulder,
   z, z, z, z, z, z, z, z, z, z,
   leftHip, rightHip, leftKnee, rightKnee, leftAnkle, rightAnkle]

instance {ε α : Type} [DecidableEq ε] [DecidableEq α] : DecidableEq (Except ε α) :=
  fun a b =>
    match a, b with
    | Except.ok x, Except.ok y =>
        if h : x = y then isTrue (by rw [h]) else isFalse (by intro hh; injection hh; contradiction)
    | Except.error x, Except.error y =>
        if h : x = y then isTrue (by rw [h]) else isFalse (by intro hh; injection hh; contradiction)
    | Except.ok _, Except.error _ => isFalse (by intro hh; cases hh)
    | Except.error _, Except.ok _ => isFalse (by intro hh; cases hh)

/-- On a `mkLandmarks` input all eight joint reads succeed, so
`analyzeSquat` reduces to the core analysis (pure unfolding, no
arithmetic involved). -/
theorem analyzeSquat_mkLandmarks (leftShoulder rightShoulder leftHip rightHip
    leftKnee rightKnee leftAnkle rightAnkle : Landmark) :
    analyzeSquat (some (mkLandmarks leftShoulder rightShoulder leftHip rightHip
      leftKnee rightKnee leftAnkle rightAnkle)) =
    Except.ok (analyzeSquatCore leftHip rightHip leftKnee rightKnee
      leftAnkle rightAnkle leftShoulder rightShoulder) := rfl

/-- If all eight required joints are present, `analyzeSquat` succeeds
with the core analysis. -/
theorem analyzeSquat_full (l : List Landmark) (lh rh lk rk la ra ls rs : Landmark)
    (h23 : l[23]? = some lh) (h24 : l[24]? = some rh)
    (h25 : l[25]? = some lk) (h26 : l[26]? = some rk)
    (h27 : l[27]? = some la) (h28 : l[28]? = some ra)
    (h11 : l[11]? = some ls) (h12 : l[12]? = some rs) :
    analyzeSquat (some l) = Except.ok (analyzeSquatCore lh rh lk rk la ra ls rs) := by
  have hlen : ¬ l.length = 0 := by
    intro h0
    rw [List.getElem?_eq_none (by omega)] at h23
    cases h23
  simp [analyzeSquat, getLm, hlen, h23, h24, h25, h26, h27, h28, h11, h12]
  rfl

/-- The feedback pushed by the knee check is determined by the
classification it returns. -/
def kneeFeedbackOf : KneeAlignment → List String
  | KneeAlignment.kneesIn => [msgKneesIn]
  | KneeAlignment.kneesOut => [msgKneesOut]
  | KneeAlignment.good => []

def backFeedbackOf : BackAlignment → List String
  | BackAlignment.forwardLean => [msgChestUp]
  | BackAlignment.backwardLean => [msgLeanForward]
  | BackAlignment.good => []

theorem kneeCheck_feedback (hw kw : ℚ) :
    (kneeCheck hw kw).2 = kneeFeedbackOf (kneeCheck hw kw).1 := by
  unfold kneeCheck
  split_ifs <;> rfl

theorem backCheck_feedback (sc hc : ℚ) :
    (backCheck sc hc).2 = backFeedbackOf (backCheck sc hc).1 := by
  unfold backCheck
  split_ifs <;> rfl

/-- Boundary behaviour of the knee classification: the thresholds are
strict, so the exact ratios 0.8 and 1.3 classify as good. -/
theorem kneeCheck_spec (hw kw : ℚ) (hnn : 0 ≤ hw) :
    ((kneeCheck hw kw).1 = KneeAlignment.good ↔ hw * (4 / 5) ≤ kw ∧ kw ≤ hw * (13 / 10)) ∧
    ((kneeCheck hw kw).1 = KneeAlignment.kneesIn ↔ kw < hw * (4 / 5)) ∧
    ((kneeCheck hw kw).1 = KneeAlignment.kneesOut ↔ hw * (13 / 10) < kw) := by
  unfold kneeCheck
  split_ifs with h1 h2
  · refine ⟨?_, ?_, ?_⟩ <;> simp
    · intro hcontra; linarith
    · exact h1
    · linarith
  · refine ⟨?_, ?_, ?_⟩ <;> simp
    · intro hcontra; linarith
    · linarith
    · exact h2
  · refine ⟨?_, ?_, ?_⟩ <;> simp
    · exact ⟨by linarith, by linarith⟩
    · linarith
    · linarith

/-- Boundary behaviour of the back classification: the thresholds are
strict, so an offset of exactly ±0.05 classifies as good. -/
theorem backCheck_spec (sc hc : ℚ) :
    ((backCheck sc hc).1 = BackAlignment.good ↔ hc - 1 / 20 ≤ sc ∧ sc ≤ hc + 1 / 20) ∧
    ((backCheck sc hc).1 = BackAlignment.forwardLean ↔ sc < hc - 1 / 20) ∧
    ((backCheck sc hc).1 = BackAlignment.backwardLean ↔ hc + 1 / 20 < sc) := by
  unfold backCheck
  split_ifs with h1 h2
  · refine ⟨?_, ?_, ?_⟩ <;> simp
    · intro hcontra; linarith
    · linarith
    · linarith
  · refine ⟨?_, ?_, ?_⟩ <;> simp
    · intro hcontra; linarith
    · linarith
    · linarith
  · refine ⟨?_, ?_, ?_⟩ <;> simp
    · exact ⟨by linarith, by linarith⟩
    · linarith
    · linarith

/-- Unfolded field values of the core analysis. -/
theorem analyzeSquatCore_fields (lh rh lk rk la ra ls rs : Landmark) :
    analyzeSquatCore lh rh lk rk la ra ls rs =
    { isSquatting := jsGtC (squatDepthVal lh rh lk rk) 20
      depth := squatDepthVal lh rh lk rk
      kneeAlignment := (kneeCheck (hipWidthOf lh rh) (kneeWidthOf lk rk)).1
      backAlignment := (backCheck (shoulderCenterOf ls rs) (hipCenterOf lh rh)).1
      feedback := (kneeCheck (hipWidthOf lh rh) (kneeWidthOf lk rk)).2 ++
        (backCheck (shoulderCenterOf ls rs) (hipCenterOf lh rh)).2 ++
        depthFeedback (jsGtC (squatDepthVal lh rh lk rk) 20) (squatDepthVal lh rh lk rk) } := rfl

/-- Unless both the hip average and the knee average sit exactly on the
standing baseline (the NaN case), the clamped depth is a rational in
[0, 100]. -/
theorem squatDepthVal_range (lh rh lk rk : Landmark)
    (h : ¬ (hipHeightOf lh rh = standingHipHeight ∧ kneeHeightOf lk rk = standingHipHeight)) :
    ∃ q : ℚ, squatDepthVal lh rh lk rk = JSNum.num q ∧ 0 ≤ q ∧ q ≤ 100 := by
  unfold squatDepthVal
  by_cases hbz : standingHipHeight - kneeHeightOf lk rk = 0
  · have haz : ¬ standingHipHeight - hipHeightOf lh rh = 0 := by
      intro h0
      exact h ⟨by linarith, by linarith⟩
    rw [jsDiv, if_pos hbz, if_neg haz]
    by_cases hap : 0 < standingHipHeight - hipHeightOf lh rh
    · rw [if_pos hap]
      refine ⟨100, ?_, by norm_num, by norm_num⟩
      simp [jsMul100, jsMinC, jsMaxC]
    · rw [if_neg hap]
      refine ⟨0, ?_, by norm_num, by norm_num⟩
      simp [jsMul100, jsMinC, jsMaxC]
  · rw [jsDiv, if_neg hbz]
    refine ⟨max 0 (min 100 ((standingHipHeight - hipHeightOf lh rh) /
      (standingHipHeight - kneeHeightOf lk rk) * 100)), rfl, le_max_left 0 _, ?_⟩
    exact max_le (by norm_num) (min_le_left 100 _)

example : analyzeSquat none = Except.ok neutralSquatAnalysis := by rfl

example : analyzeSquat (some []) = Except.ok neutralSquatAnalysis := by rfl

example : analyzeSquat (some [{ x := 0, y := 0 }]) = Except.error JsError.typeError := by rfl

/-! ## Claim C1 -/

/-- C1 counterexample: a non-empty landmark list with fewer than the
required joints (a single landmark, so index 23 is `undefined`) makes
`analyzeSquat` throw a `TypeError` instead of returning the neutral
result, refuting the never-raises part of the claim. -/
theorem analyzeSquat_short_list_throws_cex :
    analyzeSquat (some [{ x := 0, y := 0 }]) = Except.error JsError.typeError := rfl

/-- C1 (amended): `analyzeSquat` returns the neutral result
`isSquatting = false`, `depth = 0`, `feedback = []` without raising for
an undefined/absent landmark list and for the empty list; but a
NON-empty list that lacks one of the required joints (length < 29)
raises a `TypeError` when the missing joint is dereferenced. -/
theorem analyzeSquat_neutral_on_missing_input :
    analyzeSquat none = Except.ok neutralSquatAnalysis ∧
    analyzeSquat (some []) = Except.ok neutralSquatAnalysis ∧
    ∀ l : List Landmark, l ≠ [] → l.length < 29 →
      analyzeSquat (some l) = Except.error JsError.typeError := by
  refine ⟨rfl, rfl, ?_⟩
  intro l h1 h2
  have hne : ¬ l.length = 0 := fun h => h1 (List.length_eq_zero.mp h)
  have h28 : l[28]? = none := List.getElem?_eq_none (by omega)
  cases h23 : l[23]? with
  | none => simp [analyzeSquat, hne, getLm, h23] <;> rfl
  | some lh =>
    cases h24 : l[24]? with
    | none => simp [analyzeSquat, hne, getLm, h23, h24] <;> rfl
    | some rh =>
      cases h25 : l[25]? with
      | none => simp [analyzeSquat, hne, getLm, h23, h24, h25] <;> rfl
      | some lk =>
        cases h26 : l[26]? with
        | none => simp [analyzeSquat, hne, getLm, h23, h24, h25, h26] <;> rfl
        | some rk =>
          cases h27 : l[27]? with
          | none => simp [analyzeSquat, hne, getLm, h23, h24, h25, h26, h27] <;> rfl
          | some la =>
            simp [analyzeSquat, hne, getLm, h23, h24, h25, h26, h27, h28] <;> rfl

/-- C1 witness: the amended theorem applied to a concrete two-landmark
list. -/
theorem analyzeSquat_neutral_on_missing_input_witness :
    analyzeSquat (some [{ x := 0, y := 0 }, { x := 1, y := 1 }]) =
      Except.error JsError.typeError :=
  analyzeSquat_neutral_on_missing_input.2.2
    [{ x := 0, y := 0 }, { x := 1, y := 1 }] (by simp) (by norm_num)

/-! ## Claim C2 -/

/-- C2 counterexample: when both the average hip height and the average
knee height are exactly the standing baseline 0.4, the depth expression
is `0 / 0 = NaN`, and `Math.min`/`Math.max` propagate the `NaN` instead
of clamping it, so `depth` is not in [0, 100]. -/
theorem squat_depth_nan_cex :
    analyzeSquat (some (mkLandmarks
      { x := 9/20, y := 1/5 } { x := 11/20, y := 1/5 }
      { x := 9/20, y := 2/5 } { x := 11/20, y := 2/5 }
      { x := 9/20, y := 2/5 } { x := 11/20, y := 2/5 }
      { x := 9/20, y := 9/10 } { x := 11/20, y := 9/10 })) =
    Except.ok { isSquatting := false
                depth := JSNum.nan
                kneeAlignment := KneeAlignment.good
                backAlignment := BackAlignment.good
                feedback := [] } := by
  rw [analyzeSquat_mkLandmarks]
  norm_num [analyzeSquatCore, squatDepthVal, hipHeightOf, kneeHeightOf, standingHipHeight,
    jsDiv, jsMul100, jsMinC, jsMaxC, jsGtC, jsLtC, kneeCheck, backCheck, depthFeedback,
    hipWidthOf, kneeWidthOf, shoulderCenterOf, hipCenterOf]

/-- C2 (amended): for every landmark list accepted by `analyzeSquat`
with all required joints, the returned depth is a rational clamped to
[0, 100] — including when the knee average equals the standing baseline
0.4 (division by zero, giving ±Infinity which the clamp absorbs) —
EXCEPT when the hip average and the knee average both equal the
baseline, in which case the depth is `0 / 0 = NaN`. -/
theorem squat_depth_clamped (l : List Landmark) (a : SquatAnalysis)
    (lh rh lk rk la ra ls rs : Landmark)
    (h23 : l[23]? = some lh) (h24 : l[24]? = some rh)
    (h25 : l[25]? = some lk) (h26 : l[26]? = some rk)
    (h27 : l[27]? = some la) (h28 : l[28]? = some ra)
    (h11 : l[11]? = some ls) (h12 : l[12]? = some rs)
    (ha : analyzeSquat (some l) = Except.ok a)
    (hnd : ¬ (hipHeightOf lh rh = standingHipHeight ∧
              kneeHeightOf lk rk = standingHipHeight)) :
    ∃ q : ℚ, a.depth = JSNum.num q ∧ 0 ≤ q ∧ q ≤ 100 := by
  rw [analyzeSquat_full l lh rh lk rk la ra ls rs h23 h24 h25 h26 h27 h28 h11 h12] at ha
  injection ha with ha'
  subst ha'
  exact squatDepthVal_range lh rh lk rk hnd

/-- C2 witness: a divisor-zero input (knee average exactly 0.4, hip
average above it) where the amended theorem yields a clamped depth. -/
theorem squat_depth_clamped_witness :
    ∃ q : ℚ,
      (analyzeSquatCore
        { x := 9/20, y := 3/10 } { x := 11/20, y := 3/10 }
        { x := 9/20, y := 2/5 } { x := 11/20, y := 2/5 }
        { x := 9/20, y := 9/10 } { x := 11/20, y := 9/10 }
        { x := 9/20, y := 1/5 } { x := 11/20, y := 1/5 }).depth = JSNum.num q ∧
      0 ≤ q ∧ q ≤ 100 :=
  squat_depth_clamped
    (mkLandmarks
      { x := 9/20, y := 1/5 } { x := 11/20, y := 1/5 }
      { x := 9/20, y := 3/10 } { x := 11/20, y := 3/10 }
      { x := 9/20, y := 2/5 } { x := 11/20, y := 2/5 }
      { x := 9/20, y := 9/10 } { x := 11/20, y := 9/10 })
    (analyzeSquatCore
      { x := 9/20, y := 3/10 } { x := 11/20, y := 3/10 }
      { x := 9/20, y := 2/5 } { x := 11/20, y := 2/5 }
      { x := 9/20, y := 9/10 } { x := 11/20, y := 9/10 }
      { x := 9/20, y := 1/5 } { x := 11/20, y := 1/5 })
    { x := 9/20, y := 3/10 } { x := 11/20, y := 3/10 }
    { x := 9/20, y := 2/5 } { x := 11/20, y := 2/5 }
    { x := 9/20, y := 9/10 } { x := 11/20, y := 9/10 }
    { x := 9/20, y := 1/5 } { x := 11/20, y := 1/5 }
    rfl rfl rfl rfl rfl rfl rfl rfl
    (analyzeSquat_mkLandmarks
      { x := 9/20, y := 1/5 } { x := 11/20, y := 1/5 }
      { x := 9/20, y := 3/10 } { x := 11/20, y := 3/10 }
      { x := 9/20, y := 2/5 } { x := 11/20, y := 2/5 }
      { x := 9/20, y := 9/10 } { x := 11/20, y := 9/10 })
    (by norm_num [hipHeightOf, kneeHeightOf, standingHipHeight])

/-! ## Claim C5 -/

/-- C5: the classification boundaries are exclusive.  A knee-width to
hip-width ratio exactly 0.8 or exactly 1.3 classifies as good
(knees-in / knees-out require the strict inequality), and a
shoulder-center offset of exactly ±0.05 from the hip center classifies
the back as good (the leans require the strict inequality). -/
theorem alignment_boundaries_exclusive (l : List Landmark) (a : SquatAnalysis)
    (lh rh lk rk la ra ls rs : Landmark)
    (h23 : l[23]? = some lh) (h24 : l[24]? = some rh)
    (h25 : l[25]? = some lk) (h26 : l[26]? = some rk)
    (h27 : l[27]? = some la) (h28 : l[28]? = some ra)
    (h11 : l[11]? = some ls) (h12 : l[12]? = some rs)
    (ha : analyzeSquat (some l) = Except.ok a) :
    ((a.kneeAlignment = KneeAlignment.good ↔
        hipWidthOf lh rh * (4 / 5) ≤ kneeWidthOf lk rk ∧
        kneeWidthOf lk rk ≤ hipWidthOf lh rh * (13 / 10)) ∧
     (a.kneeAlignment = KneeAlignment.kneesIn ↔
        kneeWidthOf lk rk < hipWidthOf lh rh * (4 / 5)) ∧
     (a.kneeAlignment = KneeAlignment.kneesOut ↔
        hipWidthOf lh rh * (13 / 10) < kneeWidthOf lk rk)) ∧
    ((a.backAlignment = BackAlignment.good ↔
        hipCenterOf lh rh - 1 / 20 ≤ shoulderCenterOf ls rs ∧
        shoulderCenterOf ls rs ≤ hipCenterOf lh rh + 1 / 20) ∧
     (a.backAlignment = BackAlignment.forwardLean ↔
        shoulderCenterOf ls rs < hipCenterOf lh rh - 1 / 20) ∧
     (a.backAlignment = BackAlignment.backwardLean ↔
        hipCenterOf lh rh + 1 / 20 < shoulderCenterOf ls rs)) := by
  rw [analyzeSquat_full l lh rh lk rk la ra ls rs h23 h24 h25 h26 h27 h28 h11 h12] at ha
  injection ha with ha'
  subst ha'
  rw [analyzeSquatCore_fields]
  exact ⟨kneeCheck_spec (hipWidthOf lh rh) (kneeWidthOf lk rk) (abs_nonneg (lh.x - rh.x)),
         backCheck_spec (shoulderCenterOf ls rs) (hipCenterOf lh rh)⟩

/-- C5 witness: a pose sitting exactly on both boundaries — knee width
exactly 0.8 of hip width, shoulder center exactly 0.05 right of the hip
center — classifies as good on both axes. -/
theorem alignment_boundaries_exclusive_witness :
    (analyzeSquatCore
      { x := 1, y := 2/5 } { x := 0, y := 2/5 }
      { x := 4/5, y := 7/10 } { x := 0, y := 7/10 }
      { x := 4/5, y := 1 } { x := 0, y := 1 }
      { x := 11/10, y := 1/5 } { x := 0, y := 1/5 }).kneeAlignment =
        KneeAlignment.good ∧
    (analyzeSquatCore
      { x := 1, y := 2/5 } { x := 0, y := 2/5 }
      { x := 4/5, y := 7/10 } { x := 0, y := 7/10 }
      { x := 4/5, y := 1 } { x := 0, y := 1 }
      { x := 11/10, y := 1/5 } { x := 0, y := 1/5 }).backAlignment =
        BackAlignment.good := by
  have h := alignment_boundaries_exclusive
    (mkLandmarks
      { x := 11/10, y := 1/5 } { x := 0, y := 1/5 }
      { x := 1, y := 2/5 } { x := 0, y := 2/5 }
      { x := 4/5, y := 7/10 } { x := 0, y := 7/10 }
      { x := 4/5, y := 1 } { x := 0, y := 1 })
    (analyzeSquatCore
      { x := 1, y := 2/5 } { x := 0, y := 2/5 }
      { x := 4/5, y := 7/10 } { x := 0, y := 7/10 }
      { x := 4/5, y := 1 } { x := 0, y := 1 }
      { x := 11/10, y := 1/5 } { x := 0, y := 1/5 })
    { x := 1, y := 2/5 } { x := 0, y := 2/5 }
    { x := 4/5, y := 7/10 } { x := 0, y := 7/10 }
    { x := 4/5, y := 1 } { x := 0, y := 1 }
    { x := 11/10, y := 1/5 } { x := 0, y := 1/5 }
    rfl rfl rfl rfl rfl rfl rfl rfl
    (analyzeSquat_mkLandmarks
      { x := 11/10, y := 1/5 } { x := 0, y := 1/5 }
      { x := 1, y := 2/5 } { x := 0, y := 2/5 }
      { x := 4/5, y := 7/10 } { x := 0, y := 7/10 }
      { x := 4/5, y := 1 } { x := 0, y := 1 })
  refine ⟨h.1.1.mpr ?_, h.2.1.mpr ?_⟩ <;>
    constructor <;>
      norm_num [hipWidthOf, kneeWidthOf, shoulderCenterOf, hipCenterOf, abs_of_nonneg]

/-! ## Claim C6 -/

/-- C6 counterexample: a full 29-landmark standing pose (depth 0, good
alignment) returns an EMPTY feedback list — in particular it contains no
depth-band message, refuting the claim that every full landmark list
gets exactly one depth-band message. -/
theorem feedback_no_depth_message_cex :
    analyzeSquat (some (mkLandmarks
      { x := 9/20, y := 1/5 } { x := 11/20, y := 1/5 }
      { x := 9/20, y := 2/5 } { x := 11/20, y := 2/5 }
      { x := 9/20, y := 7/10 } { x := 11/20, y := 7/10 }
      { x := 9/20, y := 9/10 } { x := 11/20, y := 9/10 })) =
    Except.ok { isSquatting := false
                depth := JSNum.num 0
                kneeAlignment := KneeAlignment.good
                backAlignment := BackAlignment.good
                feedback := [] } := by
  rw [analyzeSquat_mkLandmarks]
  norm_num [analyzeSquatCore, squatDepthVal, hipHeightOf, kneeHeightOf, standingHipHeight,
    jsDiv, jsMul100, jsMinC, jsMaxC, jsGtC, jsLtC, kneeCheck, backCheck, depthFeedback,
    hipWidthOf, kneeWidthOf, shoulderCenterOf, hipCenterOf]

/-- C6 (amended): for every landmark list with all required joints the
feedback is ordered by fixed priority — any knee-alignment message
first, then any back-alignment message, then, WHEN `isSquatting` holds,
exactly one depth-band message chosen by depth < 60, 60–90 or > 90
(none when standing) — with no deduplication or collapsing. -/
theorem feedback_priority_order (l : List Landmark) (a : SquatAnalysis)
    (lh rh lk rk la ra ls rs : Landmark)
    (h23 : l[23]? = some lh) (h24 : l[24]? = some rh)
    (h25 : l[25]? = some lk) (h26 : l[26]? = some rk)
    (h27 : l[27]? = some la) (h28 : l[28]? = some ra)
    (h11 : l[11]? = some ls) (h12 : l[12]? = some rs)
    (ha : analyzeSquat (some l) = Except.ok a) :
    a.feedback =
      kneeFeedbackOf a.kneeAlignment ++ backFeedbackOf a.backAlignment ++
        depthFeedback a.isSquatting a.depth ∧
    (a.isSquatting = true →
      depthFeedback a.isSquatting a.depth =
        [if jsLtC a.depth 60 then msgGoDeeper
         else if jsGtC a.depth 90 then msgGreatDepth
         else msgPerfectDepth]) ∧
    (a.isSquatting = false → depthFeedback a.isSquatting a.depth = []) := by
  rw [analyzeSquat_full l lh rh lk rk la ra ls rs h23 h24 h25 h26 h27 h28 h11 h12] at ha
  injection ha with ha'
  subst ha'
  rw [analyzeSquatCore_fields]
  refine ⟨?_, ?_, ?_⟩
  · simp only
    rw [kneeCheck_feedback, backCheck_feedback]
  · intro h
    simp only at h
    simp [depthFeedback, h]
  · intro h
    simp only at h
    simp [depthFeedback, h]

/-- C6 witness: the amended ordering theorem applied to a concrete
squatting pose (depth 75). -/
theorem feedback_priority_order_witness :
    (analyzeSquatCore
      { x := 9/20, y := 7/10 } { x := 11/20, y := 7/10 }
      { x := 9/20, y := 4/5 } { x := 11/20, y := 4/5 }
      { x := 9/20, y := 9/10 } { x := 11/20, y := 9/10 }
      { x := 9/20, y := 1/5 } { x := 11/20, y := 1/5 }).feedback =
    kneeFeedbackOf (analyzeSquatCore
      { x := 9/20, y := 7/10 } { x := 11/20, y := 7/10 }
      { x := 9/20, y := 4/5 } { x := 11/20, y := 4/5 }
      { x := 9/20, y := 9/10 } { x := 11/20, y := 9/10 }
      { x := 9/20, y := 1/5 } { x := 11/20, y := 1/5 }).kneeAlignment ++
    backFeedbackOf (analyzeSquatCore
      { x := 9/20, y := 7/10 } { x := 11/20, y := 7/10 }
      { x := 9/20, y := 4/5 } { x := 11/20, y := 4/5 }
      { x := 9/20, y := 9/10 } { x := 11/20, y := 9/10 }
      { x := 9/20, y := 1/5 } { x := 11/20, y := 1/5 }).backAlignment ++
    depthFeedback (analyzeSquatCore
      { x := 9/20, y := 7/10 } { x := 11/20, y := 7/10 }
      { x := 9/20, y := 4/5 } { x := 11/20, y := 4/5 }
      { x := 9/20, y := 9/10 } { x := 11/20, y := 9/10 }
      { x := 9/20, y := 1/5 } { x := 11/20, y := 1/5 }).isSquatting
      (analyzeSquatCore
      { x := 9/20, y := 7/10 } { x := 11/20, y := 7/10 }
      { x := 9/20, y := 4/5 } { x := 11/20, y := 4/5 }
      { x := 9/20, y := 9/10 } { x := 11/20, y := 9/10 }
      { x := 9/20, y := 1/5 } { x := 11/20, y := 1/5 }).depth :=
  (feedback_priority_order
    (mkLandmarks
      { x := 9/20, y := 1/5 } { x := 11/20, y := 1/5 }
      { x := 9/20, y := 7/10 } { x := 11/20, y := 7/10 }
      { x := 9/20, y := 4/5 } { x := 11/20, y := 4/5 }
      { x := 9/20, y := 9/10 } { x := 11/20, y := 9/10 })
    (analyzeSquatCore
      { x := 9/20, y := 7/10 } { x := 11/20, y := 7/10 }
      { x := 9/20, y := 4/5 } { x := 11/20, y := 4/5 }
      { x := 9/20, y := 9/10 } { x := 11/20, y := 9/10 }
      { x := 9/20, y := 1/5 } { x := 11/20, y := 1/5 })
    { x := 9/20, y := 7/10 } { x := 11/20, y := 7/10 }
    { x := 9/20, y := 4/5 } { x := 11/20, y := 4/5 }
    { x := 9/20, y := 9/10 } { x := 11/20, y := 9/10 }
    { x := 9/20, y := 1/5 } { x := 11/20, y := 1/5 }
    rfl rfl rfl rfl rfl rfl rfl rfl
    (analyzeSquat_mkLandmarks
      { x := 9/20, y := 1/5 } { x := 11/20, y := 1/5 }
      { x := 9/20, y := 7/10 } { x := 11/20, y := 7/10 }
      { x := 9/20, y := 4/5 } { x := 11/20, y := 4/5 }
      { x := 9/20, y := 9/10 } { x := 11/20, y := 9/10 })).1


/-! ## Claim C9 -/

/-- Membership in the knee-check feedback, characterized by the
returned classification. -/
theorem mem_kneeCheck_iff (hw kw : ℚ) (m : String) :
    m ∈ (kneeCheck hw kw).2 ↔
      (m = msgKneesIn ∧ (kneeCheck hw kw).1 = KneeAlignment.kneesIn) ∨
      (m = msgKneesOut ∧ (kneeCheck hw kw).1 = KneeAlignment.kneesOut) := by
  unfold kneeCheck
  split_ifs <;> simp

/-- Membership in the back-check feedback, characterized by the
returned classification. -/
theorem mem_backCheck_iff (sc hc : ℚ) (m : String) :
    m ∈ (backCheck sc hc).2 ↔
      (m = msgChestUp ∧ (backCheck sc hc).1 = BackAlignment.forwardLean) ∨
      (m = msgLeanForward ∧ (backCheck sc hc).1 = BackAlignment.backwardLean) := by
  unfold backCheck
  split_ifs <;> simp

/-- Membership in the depth feedback: possible only while squatting. -/
theorem mem_depthFeedback_iff (s : Bool) (d : JSNum) (m : String) :
    m ∈ depthFeedback s d ↔
      s = true ∧ m = (if jsLtC d 60 then msgGoDeeper
                      else if jsGtC d 90 then msgGreatDepth
                      else msgPerfectDepth) := by
  unfold depthFeedback
  cases s <;> simp

/-- C9: the depth-band message appears in the feedback exactly when
`isSquatting` (depth > 20) holds, while the knee and back messages
appear exactly when the respective threshold is crossed, independent of
`isSquatting`; consequently a full landmark set can produce non-empty
feedback even when classified as standing. -/
theorem depth_feedback_iff_squatting (l : List Landmark) (a : SquatAnalysis)
    (lh rh lk rk la ra ls rs : Landmark)
    (h23 : l[23]? = some lh) (h24 : l[24]? = some rh)
    (h25 : l[25]? = some lk) (h26 : l[26]? = some rk)
    (h27 : l[27]? = some la) (h28 : l[28]? = some ra)
    (h11 : l[11]? = some ls) (h12 : l[12]? = some rs)
    (ha : analyzeSquat (some l) = Except.ok a) :
    (a.isSquatting = jsGtC a.depth 20) ∧
    ((msgGoDeeper ∈ a.feedback ∨ msgGreatDepth ∈ a.feedback ∨ msgPerfectDepth ∈ a.feedback)
        ↔ a.isSquatting = true) ∧
    (msgKneesIn ∈ a.feedback ↔ a.kneeAlignment = KneeAlignment.kneesIn) ∧
    (msgKneesOut ∈ a.feedback ↔ a.kneeAlignment = KneeAlignment.kneesOut) ∧
    (msgChestUp ∈ a.feedback ↔ a.backAlignment = BackAlignment.forwardLean) ∧
    (msgLeanForward ∈ a.feedback ↔ a.backAlignment = BackAlignment.backwardLean) ∧
    (∃ b : SquatAnalysis,
      (∃ lh2 rh2 lk2 rk2 la2 ra2 ls2 rs2 : Landmark,
        b = analyzeSquatCore lh2 rh2 lk2 rk2 la2 ra2 ls2 rs2) ∧
      b.isSquatting = false ∧ b.feedback ≠ []) := by
  rw [analyzeSquat_full l lh rh lk rk la ra ls rs h23 h24 h25 h26 h27 h28 h11 h12] at ha
  injection ha with ha'
  subst ha'
  rw [analyzeSquatCore_fields]
  refine ⟨rfl, ?_, ?_, ?_, ?_, ?_, ?_⟩
  · simp only [List.mem_append, mem_kneeCheck_iff, mem_backCheck_iff, mem_depthFeedback_iff]
    cases hsq : jsGtC (squatDepthVal lh rh lk rk) 20 <;>
      split_ifs <;>
        simp [msgKneesIn, msgKneesOut, msgChestUp, msgLeanForward,
          msgGoDeeper, msgGreatDepth, msgPerfectDepth]
  · simp only [List.mem_append, mem_kneeCheck_iff, mem_backCheck_iff, mem_depthFeedback_iff]
    split_ifs <;>
      simp [msgKneesIn, msgKneesOut, msgChestUp, msgLeanForward,
        msgGoDeeper, msgGreatDepth, msgPerfectDepth]
  · simp only [List.mem_append, mem_kneeCheck_iff, mem_backCheck_iff, mem_depthFeedback_iff]
    split_ifs <;>
      simp [msgKneesIn, msgKneesOut, msgChestUp, msgLeanForward,
        msgGoDeeper, msgGreatDepth, msgPerfectDepth]
  · simp only [List.mem_append, mem_kneeCheck_iff, mem_backCheck_iff, mem_depthFeedback_iff]
    split_ifs <;>
      simp [msgKneesIn, msgKneesOut, msgChestUp, msgLeanForward,
        msgGoDeeper, msgGreatDepth, msgPerfectDepth]
  · simp only [List.mem_append, mem_kneeCheck_iff, mem_backCheck_iff, mem_depthFeedback_iff]
    split_ifs <;>
      simp [msgKneesIn, msgKneesOut, msgChestUp, msgLeanForward,
        msgGoDeeper, msgGreatDepth, msgPerfectDepth]
  · refine ⟨analyzeSquatCore
      { x := 0, y := 2/5 } { x := 1, y := 2/5 }
      { x := 9/20, y := 7/10 } { x := 11/20, y := 7/10 }
      { x := 9/20, y := 9/10 } { x := 11/20, y := 9/10 }
      { x := 0, y := 1/5 } { x := 1, y := 1/5 },
      ⟨_, _, _, _, _, _, _, _, rfl⟩, ?_, ?_⟩ <;>
      norm_num [analyzeSquatCore, squatDepthVal, hipHeightOf, kneeHeightOf, standingHipHeight,
        jsDiv, jsMul100, jsMinC, jsMaxC, jsGtC, jsLtC, kneeCheck, backCheck, depthFeedback,
        hipWidthOf, kneeWidthOf, shoulderCenterOf, hipCenterOf, abs_of_nonneg, abs_of_nonpos]

/-- The analysis of a concrete standing pose with the knees pulled in:
used to witness C9. -/
def standingKneesInAnalysis : SquatAnalysis :=
  analyzeSquatCore
    { x := 0, y := 2/5 } { x := 1, y := 2/5 }
    { x := 9/20, y := 7/10 } { x := 11/20, y := 7/10 }
    { x := 9/20, y := 9/10 } { x := 11/20, y := 9/10 }
    { x := 0, y := 1/5 } { x := 1, y := 1/5 }

/-- C9 witness: the theorem applied to a concrete standing pose whose
knees are pulled in (feedback non-empty while not squatting). -/
theorem depth_feedback_iff_squatting_witness :
    (standingKneesInAnalysis.isSquatting = jsGtC standingKneesInAnalysis.depth 20) ∧
    ((msgGoDeeper ∈ standingKneesInAnalysis.feedback ∨
      msgGreatDepth ∈ standingKneesInAnalysis.feedback ∨
      msgPerfectDepth ∈ standingKneesInAnalysis.feedback)
        ↔ standingKneesInAnalysis.isSquatting = true) ∧
    (msgKneesIn ∈ standingKneesInAnalysis.feedback ↔
      standingKneesInAnalysis.kneeAlignment = KneeAlignment.kneesIn) ∧
    (msgKneesOut ∈ standingKneesInAnalysis.feedback ↔
      standingKneesInAnalysis.kneeAlignment = KneeAlignment.kneesOut) ∧
    (msgChestUp ∈ standingKneesInAnalysis.feedback ↔
      standingKneesInAnalysis.backAlignment = BackAlignment.forwardLean) ∧
    (msgLeanForward ∈ standingKneesInAnalysis.feedback ↔
      standingKneesInAnalysis.backAlignment = BackAlignment.backwardLean) ∧
    (∃ b : SquatAnalysis,
      (∃ lh2 rh2 lk2 rk2 la2 ra2 ls2 rs2 : Landmark,
        b = analyzeSquatCore lh2 rh2 lk2 rk2 la2 ra2 ls2 rs2) ∧
      b.isSquatting = false ∧ b.feedback ≠ []) :=
  depth_feedback_iff_squatting
    (mkLandmarks
      { x := 0, y := 1/5 } { x := 1, y := 1/5 }
      { x := 0, y := 2/5 } { x := 1, y := 2/5 }
      { x := 9/20, y := 7/10 } { x := 11/20, y := 7/10 }
      { x := 9/20, y := 9/10 } { x := 11/20, y := 9/10 })
    standingKneesInAnalysis
    { x := 0, y := 2/5 } { x := 1, y := 2/5 }
    { x := 9/20, y := 7/10 } { x := 11/20, y := 7/10 }
    { x := 9/20, y := 9/10 } { x := 11/20, y := 9/10 }
    { x := 0, y := 1/5 } { x := 1, y := 1/5 }
    rfl rfl rfl rfl rfl rfl rfl rfl
    (analyzeSquat_mkLandmarks
      { x := 0, y := 1/5 } { x := 1, y := 1/5 }
      { x := 0, y := 2/5 } { x := 1, y := 2/5 }
      { x := 9/20, y := 7/10 } { x := 11/20, y := 7/10 }
      { x := 9/20, y := 9/10 } { x := 11/20, y := 9/10 })

/-! ## Session coordinator (`WorkoutSession.tsx`) -/

/-- The mutable counters owned by the session coordinator. -/
structure SessionStats where
  duration : ℤ
  squatsCompleted : ℤ
  goodFormReps : ℤ
  currentStreak : ℤ
  bestStreak : ℤ
deriving DecidableEq, Repr

/-- The all-zero stats object written on session start and reset. -/
def initialStats : SessionStats :=
  { duration := 0
    squatsCompleted := 0
    goodFormReps := 0
    currentStreak := 0
    bestStreak := 0 }

/-- Coordinator state: the `isActive` flag (lifted through the parent),
the recorded start timestamp and the stats. -/
structure SessionState where
  isActive : Bool
  sessionStartTime : Option ℤ
  sessionStats : SessionStats
deriving DecidableEq, Repr

/-- One timer tick (lines 52–61): the interval only exists while
`isActive && sessionStartTime`, and each tick recomputes
`Math.floor((Date.now() - sessionStartTime) / 1000)` and stores it in
`duration`, leaving every other field unchanged. -/
def timerTick (now : ℤ) (s : SessionState) : SessionState :=
  match s.sessionStartTime with
  | some t0 =>
      if s.isActive then
        { s with sessionStats := { s.sessionStats with duration := Int.fdiv (now - t0) 1000 } }
      else s
  | none => s

/-- `handleSessionToggle` (lines 72–90): ending clears the start
timestamp; starting records `Date.now()` and resets all stats. -/
def handleSessionToggle (now : ℤ) (s : SessionState) : SessionState :=
  if s.isActive then
    { s with isActive := false, sessionStartTime := none }
  else
    { isActive := true, sessionStartTime := some now, sessionStats := initialStats }

/-- `resetSession` (lines 92–103): zero the stats and, if a session is
active, restart the timestamp. -/
def resetSession (now : ℤ) (s : SessionState) : SessionState :=
  let s1 := { s with sessionStats := initialStats }
  if s1.isActive then { s1 with sessionStartTime := some now } else s1

/-- The events that can touch the coordinator state. -/
inductive SessionEvent where
  | toggle (now : ℤ) : SessionEvent
  | tick (now : ℤ) : SessionEvent
  | reset (now : ℤ) : SessionEvent
deriving DecidableEq, Repr

def sessionStep (s : SessionState) : SessionEvent → SessionState
  | SessionEvent.toggle now => handleSessionToggle now s
  | SessionEvent.tick now => timerTick now s
  | SessionEvent.reset now => resetSession now s

def runSession (s : SessionState) (evts : List SessionEvent) : SessionState :=
  evts.foldl sessionStep s

/-- The four rep/streak counters are all zero. -/
def repCountersZero (s : SessionState) : Prop :=
  s.sessionStats.squatsCompleted = 0 ∧ s.sessionStats.goodFormReps = 0 ∧
  s.sessionStats.currentStreak = 0 ∧ s.sessionStats.bestStreak = 0

theorem sessionStep_preserves_zero (s : SessionState) (e : SessionEvent)
    (h : repCountersZero s) : repCountersZero (sessionStep s e) := by
  obtain ⟨sa, sst, sd, ssq, sg, scs, sbs⟩ := s
  obtain ⟨h1, h2, h3, h4⟩ := h
  simp only [repCountersZero] at h1 h2 h3 h4
  cases e <;> cases sa <;> cases sst <;>
    simp_all [sessionStep, handleSessionToggle, timerTick, resetSession,
      repCountersZero, initialStats]

theorem runSession_preserves_zero (s : SessionState) (evts : List SessionEvent)
    (h : repCountersZero s) : repCountersZero (runSession s evts) := by
  induction evts generalizing s with
  | nil => exact h
  | cons e rest ih => exact ih (sessionStep s e) (sessionStep_preserves_zero s e h)

/-! ## Claim C7 -/

/-- C7: a timer tick during an active session started at `t0` sets the
duration to `floor((now - t0) / 1000)`, i.e. it is recomputed from the
wall-clock delta, independent of any previously accumulated value. -/
theorem timer_tick_wall_clock (s : SessionState) (t0 now : ℤ)
    (ha : s.isActive = true) (ht : s.sessionStartTime = some t0) :
    (timerTick now s).sessionStats.duration = Int.fdiv (now - t0) 1000 ∧
    ∀ s' : SessionState, s'.isActive = true → s'.sessionStartTime = some t0 →
      (timerTick now s').sessionStats.duration =
        (timerTick now s).sessionStats.duration := by
  have hmain : ∀ t : SessionState, t.isActive = true → t.sessionStartTime = some t0 →
      (timerTick now t).sessionStats.duration = Int.fdiv (now - t0) 1000 := by
    intro t hta htt
    unfold timerTick
    rw [htt]
    simp [hta]
  refine ⟨hmain s ha ht, ?_⟩
  intro s' ha' ht'
  rw [hmain s' ha' ht', hmain s ha ht]

/-- An active session state carrying a stale duration of 7, used to
witness C7. -/
def tickWitnessState : SessionState :=
  { isActive := true
    sessionStartTime := some 1000
    sessionStats :=
      { duration := 7
        squatsCompleted := 0
        goodFormReps := 0
        currentStreak := 0
        bestStreak := 0 } }

/-- C7 witness: tick at 5500 ms for a session started at 1000 ms gives
floor(4500 / 1000) = 4 s, regardless of the stale accumulated value. -/
theorem timer_tick_wall_clock_witness :
    (timerTick 5500 tickWitnessState).sessionStats.duration =
      Int.fdiv (5500 - 1000) 1000 ∧
    ∀ s' : SessionState, s'.isActive = true → s'.sessionStartTime = some 1000 →
      (timerTick 5500 s').sessionStats.duration =
        (timerTick 5500 tickWitnessState).sessionStats.duration :=
  timer_tick_wall_clock tickWitnessState 1000 5500 rfl rfl

/-! ## Claim C8 -/

/-- C8: the timer tick mutates only the `duration` field of the stats,
and after a session start (toggle from an inactive state) the four
rep/streak counters are zero and stay zero under any sequence of
coordinator events, since no code path increments them. -/
theorem rep_counters_stay_zero (s : SessionState) (now : ℤ)
    (evts : List SessionEvent) (h : s.isActive = false) :
    (∀ (t : SessionState) (n : ℤ),
      (timerTick n t).sessionStats.squatsCompleted = t.sessionStats.squatsCompleted ∧
      (timerTick n t).sessionStats.goodFormReps = t.sessionStats.goodFormReps ∧
      (timerTick n t).sessionStats.currentStreak = t.sessionStats.currentStreak ∧
      (timerTick n t).sessionStats.bestStreak = t.sessionStats.bestStreak ∧
      (timerTick n t).isActive = t.isActive ∧
      (timerTick n t).sessionStartTime = t.sessionStartTime) ∧
    repCountersZero (handleSessionToggle now s) ∧
    repCountersZero (runSession (handleSessionToggle now s) evts) := by
  have htick : ∀ (t : SessionState) (n : ℤ),
      (timerTick n t).sessionStats.squatsCompleted = t.sessionStats.squatsCompleted ∧
      (timerTick n t).sessionStats.goodFormReps = t.sessionStats.goodFormReps ∧
      (timerTick n t).sessionStats.currentStreak = t.sessionStats.currentStreak ∧
      (timerTick n t).sessionStats.bestStreak = t.sessionStats.bestStreak ∧
      (timerTick n t).isActive = t.isActive ∧
      (timerTick n t).sessionStartTime = t.sessionStartTime := by
    intro t n
    obtain ⟨ta, tst, tstats⟩ := t
    cases tst <;> cases ta <;> simp [timerTick]
  have hstart : repCountersZero (handleSessionToggle now s) := by
    unfold handleSessionToggle
    rw [h]
    simp [repCountersZero, initialStats]
  exact ⟨htick, hstart, runSession_preserves_zero (handleSessionToggle now s) evts hstart⟩

/-- The inactive idle state before a session starts, used to witness
C8. -/
def idleSessionState : SessionState :=
  { isActive := false
    sessionStartTime := none
    sessionStats := initialStats }

/-- C8 witness: starting from the idle state, after a session start
followed by ticks, a reset and toggles, the rep counters are still
zero. -/
theorem rep_counters_stay_zero_witness :
    repCountersZero (runSession (handleSessionToggle 5 idleSessionState)
      [SessionEvent.tick 1000, SessionEvent.reset 2000,
       SessionEvent.toggle 2500, SessionEvent.toggle 3000, SessionEvent.tick 4000]) :=
  (rep_counters_stay_zero idleSessionState 5
    [SessionEvent.tick 1000, SessionEvent.reset 2000,
     SessionEvent.toggle 2500, SessionEvent.toggle 3000, SessionEvent.tick 4000]
    rfl).2.2

/-! ## Voice-coach fallback (`VoiceCoach.tsx`)

Sequential event-loop model: the SDK callbacks (`onConnect`,
`onDisconnect`) and the status-watching effect run one at a time and
each sees the state left by the previous handler.  `connectAttemptAt`
starts at `0`, which is falsy in `!!connectAttemptAt`. -/

inductive VStatus where
  | disconnected : VStatus
  | connecting : VStatus
  | connected : VStatus
deriving DecidableEq, Repr

structure VoiceState where
  usePrivate : Bool
  fallbackTried : Bool
  connectAttemptAt : ℤ
  status : VStatus
deriving DecidableEq, Repr

/-- `!!connectAttemptAt && Date.now() - connectAttemptAt < 5000`
(lines 95 and 298): the five-second grace window after a connect
attempt. -/
def justAttempted (s : VoiceState) (now : ℤ) : Bool :=
  decide (s.connectAttemptAt ≠ 0) && decide (now - s.connectAttemptAt < 5000)

/-- Events touching the fallback logic: `startCoaching` recording the
attempt timestamp, the SDK connect/disconnect callbacks, a run of the
status-watching effect, and the user toggling the private checkbox. -/
inductive VEvent where
  | startAttempt (now : ℤ) : VEvent
  | connectEvt : VEvent
  | disconnectEvt (now : ℤ) : VEvent
  | statusEffect (now : ℤ) : VEvent
  | setUsePrivate (b : Bool) : VEvent
deriving DecidableEq, Repr

/-- One handler run.  The returned `Bool` is `true` exactly when a
private signed-URL fallback attempt is initiated during the handler:
`onDisconnect` (lines 92–118) fires it when the session was public,
recently attempted and `fallbackTried` is still unset, setting the flag
first; the status watcher (lines 297–303) does the same via
`tryPrivateFallback`, which also sets the flag first (line 229).
Nothing ever resets `fallbackTried` during a session. -/
def vstep (s : VoiceState) : VEvent → VoiceState × Bool
  | VEvent.startAttempt now => ({ s with connectAttemptAt := now }, false)
  | VEvent.connectEvt => ({ s with status := VStatus.connected }, false)
  | VEvent.disconnectEvt now =>
      if !s.usePrivate && justAttempted s now && !s.fallbackTried then
        ({ s with status := VStatus.disconnected, fallbackTried := true }, true)
      else ({ s with status := VStatus.disconnected }, false)
  | VEvent.statusEffect now =>
      if decide (s.status = VStatus.disconnected) && !s.usePrivate &&
          !s.fallbackTried && justAttempted s now then
        ({ s with fallbackTried := true }, true)
      else (s, false)
  | VEvent.setUsePrivate b => ({ s with usePrivate := b }, false)

def runVoice (s : VoiceState) (evts : List VEvent) : VoiceState :=
  evts.foldl (fun t e => (vstep t e).1) s

/-- Number of fallback attempts initiated along an event trace. -/
def fallbackCount (s : VoiceState) : List VEvent → ℕ
  | [] => 0
  | e :: rest => (if (vstep s e).2 then 1 else 0) + fallbackCount (vstep s e).1 rest

theorem vstep_fired_sets_tried (s : VoiceState) (e : VEvent)
    (h : (vstep s e).2 = true) : (vstep s e).1.fallbackTried = true := by
  cases e with
  | startAttempt now => cases h
  | connectEvt => cases h
  | setUsePrivate b => cases h
  | disconnectEvt now =>
    by_cases hc : (!s.usePrivate && justAttempted s now && !s.fallbackTried) = true <;>
      simp_all [vstep]
  | statusEffect now =>
    by_cases hc : (decide (s.status = VStatus.disconnected) && !s.usePrivate &&
        !s.fallbackTried && justAttempted s now) = true <;>
      simp_all [vstep]

theorem vstep_tried_mono (s : VoiceState) (e : VEvent)
    (h : s.fallbackTried = true) :
    (vstep s e).1.fallbackTried = true ∧ (vstep s e).2 = false := by
  cases e <;> simp_all [vstep]

theorem vstep_not_fired (s : VoiceState) (e : VEvent)
    (h : (vstep s e).2 = false) : (vstep s e).1.fallbackTried = s.fallbackTried := by
  cases e with
  | startAttempt now => rfl
  | connectEvt => rfl
  | setUsePrivate b => rfl
  | disconnectEvt now =>
    simp only [vstep] at h ⊢
    split_ifs at h ⊢ with hc
    rfl
  | statusEffect now =>
    simp only [vstep] at h ⊢
    split_ifs at h ⊢ with hc
    rfl

/-- Once the flag is set, no later event fires a fallback. -/
theorem fallbackCount_zero_of_tried (evts : List VEvent) (s : VoiceState)
    (h : s.fallbackTried = true) : fallbackCount s evts = 0 := by
  induction evts generalizing s with
  | nil => rfl
  | cons e rest ih =>
    obtain ⟨h1, h2⟩ := vstep_tried_mono s e h
    simp [fallbackCount, h2, ih _ h1]

/-- From an untried state, at most one fallback fires along any trace. -/
theorem fallbackCount_le_one (evts : List VEvent) (s : VoiceState)
    (h : s.fallbackTried = false) : fallbackCount s evts ≤ 1 := by
  induction evts generalizing s with
  | nil => simp [fallbackCount]
  | cons e rest ih =>
    by_cases hf : (vstep s e).2 = true
    · have ht := vstep_fired_sets_tried s e hf
      simp [fallbackCount, hf, fallbackCount_zero_of_tried rest _ ht]
    · have hb : (vstep s e).2 = false := by simpa using hf
      have hkeep := (vstep_not_fired s e hb).trans h
      simpa [fallbackCount, hb] using ih _ hkeep

theorem fallbackCount_append (l1 l2 : List VEvent) (s : VoiceState) :
    fallbackCount s (l1 ++ l2) = fallbackCount s l1 + fallbackCount (runVoice s l1) l2 := by
  induction l1 generalizing s with
  | nil => simp [fallbackCount, runVoice]
  | cons e rest ih =>
    simp [fallbackCount, runVoice, List.foldl_cons, ih]
    omega

/-- A fallback-free trace leaves the flag unchanged. -/
theorem runVoice_tried_of_count_zero (evts : List VEvent) (s : VoiceState)
    (h : fallbackCount s evts = 0) : (runVoice s evts).fallbackTried = s.fallbackTried := by
  induction evts generalizing s with
  | nil => rfl
  | cons e rest ih =>
    have hsum : (if (vstep s e).2 then 1 else 0) + fallbackCount (vstep s e).1 rest = 0 := h
    have hf : (vstep s e).2 = false := by
      by_cases hb : (vstep s e).2 = true <;> simp_all
    have hr : fallbackCount (vstep s e).1 rest = 0 := by omega
    calc (runVoice s (e :: rest)).fallbackTried
        = (runVoice (vstep s e).1 rest).fallbackTried := rfl
      _ = (vstep s e).1.fallbackTried := ih _ hr
      _ = s.fallbackTried := vstep_not_fired s e hf

/-! ## Claim C3 -/

/-- C3: within a session (flag initially unset), at most one fallback
attempt ever fires, and if a disconnect arrives inside the 5-second
grace window of a non-private connect attempt while no fallback has
fired yet, then the whole session trace — whatever events follow,
including runs of the status-watching effect and further disconnects —
contains exactly one fallback attempt. -/
theorem single_fallback_per_session (s : VoiceState) (evts1 evts2 : List VEvent) (now : ℤ)
    (h0 : s.fallbackTried = false)
    (h1 : fallbackCount s evts1 = 0)
    (hpriv : (runVoice s evts1).usePrivate = false)
    (hgrace : justAttempted (runVoice s evts1) now = true) :
    (∀ evts : List VEvent, fallbackCount s evts ≤ 1) ∧
    fallbackCount s (evts1 ++ VEvent.disconnectEvt now :: evts2) = 1 := by
  refine ⟨fun evts => fallbackCount_le_one evts s h0, ?_⟩
  rw [fallbackCount_append, h1]
  have htried : (runVoice s evts1).fallbackTried = false :=
    (runVoice_tried_of_count_zero evts1 s h1).trans h0
  have hcond : (!(runVoice s evts1).usePrivate && justAttempted (runVoice s evts1) now &&
      !(runVoice s evts1).fallbackTried) = true := by
    rw [hpriv, hgrace, htried]
    rfl
  have hfired : (vstep (runVoice s evts1) (VEvent.disconnectEvt now)).2 = true := by
    simp only [vstep]
    rw [if_pos hcond]
  have hnext : (vstep (runVoice s evts1) (VEvent.disconnectEvt now)).1.fallbackTried = true :=
    vstep_fired_sets_tried (runVoice s evts1) (VEvent.disconnectEvt now) hfired
  simp [fallbackCount, hfired, fallbackCount_zero_of_tried evts2 _ hnext]

/-- The voice-coach state at mount: public mode, no fallback tried, no
connect attempt recorded. -/
def initialVoiceState : VoiceState :=
  { usePrivate := false
    fallbackTried := false
    connectAttemptAt := 0
    status := VStatus.disconnected }

/-- C3 witness: a public connect attempt at t = 1000 followed by a
disconnect at t = 2000 (inside the grace window) fires exactly one
fallback, even though a status-watcher run and a second disconnect
follow. -/
theorem single_fallback_per_session_witness :
    fallbackCount initialVoiceState
      ([VEvent.startAttempt 1000] ++ VEvent.disconnectEvt 2000 ::
        [VEvent.statusEffect 2100, VEvent.disconnectEvt 2200]) = 1 :=
  (single_fallback_per_session initialVoiceState
    [VEvent.startAttempt 1000]
    [VEvent.statusEffect 2100, VEvent.disconnectEvt 2200]
    2000 rfl rfl rfl (by decide)).2

/-! ## Credential endpoint (`supabase/functions/eleven-signed-url/index.ts`)

The handler is modelled as a pure function of the request, the
`XI_API_KEY` environment value and the provider (ElevenLabs) HTTP
responses; the second component of the result records whether an
outbound provider call was made.  JavaScript truthiness of strings
(`undefined` and `""` are falsy) drives the guards. -/

/-- JS truthiness for an optional string value. -/
def jsTruthyStr : Option String → Bool
  | none => false
  | some s => decide (s ≠ "")

/-- JS `a || b` on optional strings: `b` if `a` is falsy, else `a`. -/
def jsOr (a b : Option String) : Option String :=
  if jsTruthyStr a then a else b

/-- The parsed JSON request body `{ agentId, validate }` (only the
validate-capable variant reads `validate`). -/
structure ReqBody where
  agentId : Option String
  validate : Bool
deriving DecidableEq, Repr

/-- An incoming request: method and the result of `req.json()` (which
throws on a malformed body). -/
structure EdgeRequest where
  method : String
  body : Except String ReqBody
deriving DecidableEq, Repr

/-- The provider response to the `get_signed_url` call: HTTP
`resp.ok`, the error text and the three url-ish fields the handler
probes (`body.signed_url || body.url || body.signedUrl`). -/
structure ProviderResp where
  ok : Bool
  text : String
  signed_url : Option String
  url : Option String
  signedUrl : Option String
deriving DecidableEq, Repr

/-- The provider response to the agent-validation call used by the
validate-capable variant. -/
structure ValidateResp where
  ok : Bool
  status : ℕ
  text : String
  agent_id : Option String
  name : Option String
  visibility : Option String
deriving DecidableEq, Repr

/-- JSON response bodies the handler can emit. -/
inductive RespBody where
  | plain (s : String) : RespBody
  | err (msg : String) : RespBody
  | errDetails (msg details : String) : RespBody
  | signed (u : Option String) : RespBody
  | validFalse (status : ℕ) (message : String) : RespBody
  | validTrue (id name visibility : Option String) : RespBody
deriving DecidableEq, Repr

structure HttpResponse where
  status : ℕ
  body : RespBody
deriving DecidableEq, Repr

/-- The deployed `index.ts` handler.  The flag in the second component
is `true` iff the outbound `fetch` to the provider was executed. -/
def elevenSignedUrlHandler (env : Option String) (prov : ProviderResp)
    (req : EdgeRequest) : HttpResponse × Bool :=
  if req.method = "OPTIONS" then ({ status := 200, body := RespBody.plain "ok" }, false)
  else
    match req.body with
    | Except.error e =>
        ({ status := 500, body := RespBody.errDetails "Unexpected error" e }, false)
    | Except.ok b =>
        if !jsTruthyStr b.agentId then
          ({ status := 400, body := RespBody.err "Missing agentId" }, false)
        else if !jsTruthyStr env then
          ({ status := 500, body := RespBody.err "Missing XI_API_KEY secret" }, false)
        else if !prov.ok then
          ({ status := 500, body := RespBody.errDetails "ElevenLabs error" prov.text }, true)
        else
          ({ status := 200,
             body := RespBody.signed (jsOr prov.signed_url (jsOr prov.url prov.signedUrl)) },
           true)

/-- The validate-capable variant of the handler (`src/unnamed/part_003`):
identical until after the secret check, then branches on `validate`. -/
def elevenSignedUrlValidateHandler (env : Option String) (vprov : ValidateResp)
    (prov : ProviderResp) (req : EdgeRequest) : HttpResponse × Bool :=
  if req.method = "OPTIONS" then ({ status := 200, body := RespBody.plain "ok" }, false)
  else
    match req.body with
    | Except.error e =>
        ({ status := 500, body := RespBody.errDetails "Unexpected error" e }, false)
    | Except.ok b =>
        if !jsTruthyStr b.agentId then
          ({ status := 400, body := RespBody.err "Missing agentId" }, false)
        else if !jsTruthyStr env then
          ({ status := 500, body := RespBody.err "Missing XI_API_KEY secret" }, false)
        else if b.validate then
          if !vprov.ok then
            ({ status := 200, body := RespBody.validFalse vprov.status vprov.text }, true)
          else
            ({ status := 200,
               body := RespBody.validTrue (jsOr vprov.agent_id b.agentId)
                 vprov.name vprov.visibility }, true)
        else if !prov.ok then
          ({ status := 500, body := RespBody.errDetails "ElevenLabs error" prov.text }, true)
        else
          ({ status := 200,
             body := RespBody.signed (jsOr prov.signed_url (jsOr prov.url prov.signedUrl)) },
           true)

/-! ## Claim C4 -/

/-- C4: for a non-preflight request whose body parses: a body with a
falsy `agentId` yields 400 `{error: "Missing agentId"}`; a truthy
`agentId` with a falsy `XI_API_KEY` secret yields 500
`{error: "Missing XI_API_KEY secret"}`; and when the provider call
succeeds (`resp.ok`) and its body carries a signed URL in any of the
three probed fields, the response is 200 with the `signed_url` string
field present — in both handler variants (the validate variant taken on
its non-validate path). -/
theorem credential_endpoint_statuses (env : Option String) (prov : ProviderResp)
    (vprov : ValidateResp) (req : EdgeRequest) (b : ReqBody)
    (hm : req.method ≠ "OPTIONS") (hb : req.body = Except.ok b) :
    (jsTruthyStr b.agentId = false →
      (elevenSignedUrlHandler env prov req).1 =
        { status := 400, body := RespBody.err "Missing agentId" } ∧
      (elevenSignedUrlValidateHandler env vprov prov req).1 =
        { status := 400, body := RespBody.err "Missing agentId" }) ∧
    (jsTruthyStr b.agentId = true → jsTruthyStr env = false →
      (elevenSignedUrlHandler env prov req).1 =
        { status := 500, body := RespBody.err "Missing XI_API_KEY secret" } ∧
      (elevenSignedUrlValidateHandler env vprov prov req).1 =
        { status := 500, body := RespBody.err "Missing XI_API_KEY secret" }) ∧
    (∀ u : String, jsTruthyStr b.agentId = true → jsTruthyStr env = true →
      prov.ok = true → jsOr prov.signed_url (jsOr prov.url prov.signedUrl) = some u →
      (elevenSignedUrlHandler env prov req).1 =
        { status := 200, body := RespBody.signed (some u) } ∧
      (b.validate = false →
        (elevenSignedUrlValidateHandler env vprov prov req).1 =
          { status := 200, body := RespBody.signed (some u) })) := by
  refine ⟨?_, ?_, ?_⟩
  · intro hag
    constructor <;>
      simp [elevenSignedUrlHandler, elevenSignedUrlValidateHandler, hm, hb, hag]
  · intro hag henv
    constructor <;>
      simp [elevenSignedUrlHandler, elevenSignedUrlValidateHandler, hm, hb, hag, henv]
  · intro u hag henv hok hurl
    refine ⟨?_, ?_⟩
    · simp [elevenSignedUrlHandler, hm, hb, hag, henv, hok, hurl]
    · intro hv
      simp [elevenSignedUrlValidateHandler, hm, hb, hag, henv, hok, hurl, hv]

/-- A POST request without `agentId` in the body. -/
def reqNoAgent : EdgeRequest :=
  { method := "POST"
    body := Except.ok { agentId := none, validate := false } }

/-- A POST request with a non-empty `agentId` and no `validate` flag. -/
def reqAgent : EdgeRequest :=
  { method := "POST"
    body := Except.ok { agentId := some "agent_123", validate := false } }

/-- A successful provider response carrying `signed_url`. -/
def provOkResp : ProviderResp :=
  { ok := true
    text := ""
    signed_url := some "wss://signed"
    url := none
    signedUrl := none }

/-- A successful validation response from the provider. -/
def vprovOkResp : ValidateResp :=
  { ok := true
    status := 200
    text := ""
    agent_id := some "agent_123"
    name := some "coach"
    visibility := some "public" }

/-- C4 witness: the three branches exercised on concrete requests,
secrets and provider responses, in both handler variants. -/
theorem credential_endpoint_statuses_witness :
    ((elevenSignedUrlHandler (some "xi-key") provOkResp reqNoAgent).1 =
        { status := 400, body := RespBody.err "Missing agentId" } ∧
     (elevenSignedUrlValidateHandler (some "xi-key") vprovOkResp provOkResp reqNoAgent).1 =
        { status := 400, body := RespBody.err "Missing agentId" }) ∧
    ((elevenSignedUrlHandler none provOkResp reqAgent).1 =
        { status := 500, body := RespBody.err "Missing XI_API_KEY secret" } ∧
     (elevenSignedUrlValidateHandler none vprovOkResp provOkResp reqAgent).1 =
        { status := 500, body := RespBody.err "Missing XI_API_KEY secret" }) ∧
    ((elevenSignedUrlHandler (some "xi-key") provOkResp reqAgent).1 =
        { status := 200, body := RespBody.signed (some "wss://signed") } ∧
     (elevenSignedUrlValidateHandler (some "xi-key") vprovOkResp provOkResp reqAgent).1 =
        { status := 200, body := RespBody.signed (some "wss://signed") }) :=
  ⟨(credential_endpoint_statuses (some "xi-key") provOkResp vprovOkResp reqNoAgent
      { agentId := none, validate := false } (by decide) rfl).1 rfl,
   ⟨(credential_endpoint_statuses none provOkResp vprovOkResp reqAgent
      { agentId := some "agent_123", validate := false } (by decide) rfl).2.1
      (by decide) rfl,
    by
      have h := (credential_endpoint_statuses (some "xi-key") provOkResp vprovOkResp reqAgent
        { agentId := some "agent_123", validate := false } (by decide) rfl).2.2
        "wss://signed" (by decide) (by decide) rfl (by decide)
      exact ⟨h.1, h.2 rfl⟩⟩⟩

/-! ## Claim C10 -/

/-- C10: the body is validated before the server configuration — a
falsy `agentId` yields the 400 response with no outbound provider call
even when the secret is also absent — and the outbound provider call is
made only when both a truthy `agentId` and a truthy secret are present,
in both handler variants. -/
theorem agent_id_checked_before_secret (env : Option String) (prov : ProviderResp)
    (vprov : ValidateResp) (req : EdgeRequest) :
    (∀ b : ReqBody, req.method ≠ "OPTIONS" → req.body = Except.ok b →
      jsTruthyStr b.agentId = false →
      elevenSignedUrlHandler env prov req =
        ({ status := 400, body := RespBody.err "Missing agentId" }, false) ∧
      elevenSignedUrlValidateHandler env vprov prov req =
        ({ status := 400, body := RespBody.err "Missing agentId" }, false)) ∧
    ((elevenSignedUrlHandler env prov req).2 = true →
      ∃ b : ReqBody, req.body = Except.ok b ∧
        jsTruthyStr b.agentId = true ∧ jsTruthyStr env = true) ∧
    ((elevenSignedUrlValidateHandler env vprov prov req).2 = true →
      ∃ b : ReqBody, req.body = Except.ok b ∧
        jsTruthyStr b.agentId = true ∧ jsTruthyStr env = true) := by
  refine ⟨?_, ?_, ?_⟩
  · intro b hm hb hag
    constructor <;>
      simp [elevenSignedUrlHandler, elevenSignedUrlValidateHandler, hm, hb, hag]
  · intro hcall
    by_cases hm : req.method = "OPTIONS"
    · simp [elevenSignedUrlHandler, hm] at hcall
    · cases hb : req.body with
      | error e => simp [elevenSignedUrlHandler, hm, hb] at hcall
      | ok b =>
        have hag : jsTruthyStr b.agentId = true := by
          by_contra hng
          have hf : jsTruthyStr b.agentId = false := by simpa using hng
          simp [elevenSignedUrlHandler, hm, hb, hf] at hcall
        have henv : jsTruthyStr env = true := by
          by_contra hng
          have hf : jsTruthyStr env = false := by simpa using hng
          simp [elevenSignedUrlHandler, hm, hb, hag, hf] at hcall
        exact ⟨b, rfl, hag, henv⟩
  · intro hcall
    by_cases hm : req.method = "OPTIONS"
    · simp [elevenSignedUrlValidateHandler, hm] at hcall
    · cases hb : req.body with
      | error e => simp [elevenSignedUrlValidateHandler, hm, hb] at hcall
      | ok b =>
        have hag : jsTruthyStr b.agentId = true := by
          by_contra hng
          have hf : jsTruthyStr b.agentId = false := by simpa using hng
          simp [elevenSignedUrlValidateHandler, hm, hb, hf] at hcall
        have henv : jsTruthyStr env = true := by
          by_contra hng
          have hf : jsTruthyStr env = false := by simpa using hng
          simp [elevenSignedUrlValidateHandler, hm, hb, hag, hf] at hcall
        exact ⟨b, rfl, hag, henv⟩

/-- C10 witness: with the secret ABSENT and `agentId` missing, both
handlers answer 400 (not 500) and make no provider call. -/
theorem agent_id_checked_before_secret_witness :
    elevenSignedUrlHandler none provOkResp reqNoAgent =
      ({ status := 400, body := RespBody.err "Missing agentId" }, false) ∧
    elevenSignedUrlValidateHandler none vprovOkResp provOkResp reqNoAgent =
      ({ status := 400, body := RespBody.err "Missing agentId" }, false) :=
  (agent_id_checked_before_secret none provOkResp vprovOkResp reqNoAgent).1
    { agentId := none, validate := false } (by decide) rfl rfl
